import Mathlib

/-!
Shallow embedding of the page-rendering middleware in
src/middleware/render-page.js, together with proofs of the behavioural
properties stated in the accompanying specification.

The middleware is an Express handler.  We model it as a pure function from
the request descriptor, the render context and the behaviour of the external
collaborators (renderer, mini-toc extractor, language-variant computation,
connection monitor, version catalog, homepage pattern, environment) to a
record of every observable effect: the terminal response action, the headers
set on the response, diagnostics written to the console, and the mutations
performed on the page/context objects.
-/

namespace RenderPageSpec

/-! ### JavaScript string primitives

Structural-recursion re-implementations of the JS string operations the
middleware uses, so that every definition reduces inside the kernel. -/

/-- Boolean list-prefix test: the first list is a prefix of the second. -/
def listPrefixOf : List Char → List Char → Bool
  | [], _ => true
  | _ :: _, [] => false
  | a :: as, b :: bs => a == b && listPrefixOf as bs

/-- Boolean substring test on char lists: the second list occurs inside the
first (JS String.prototype.includes). -/
def listContainsSub : List Char → List Char → Bool
  | _, [] => true
  | [], _ :: _ => false
  | a :: as, b :: bs => listPrefixOf (b :: bs) (a :: as) || listContainsSub as (b :: bs)

/-- JS s.includes(sub). -/
def jsIncludes (s sub : String) : Bool :=
  listContainsSub s.toList sub.toList

/-- JS s.endsWith(suffix). -/
def jsEndsWith (s suffixStr : String) : Bool :=
  listPrefixOf suffixStr.toList.reverse s.toList.reverse

/-- JS a || b for an optional string a: an absent or empty string is falsy. -/
def jsOrStr (a : Option String) (b : String) : String :=
  match a with
  | some s => if s.isEmpty then b else s
  | none => b

/-- JS truthiness of an optional string value: absent and empty are falsy. -/
def jsTruthyStr : Option String → Bool
  | some s => !s.isEmpty
  | none => false

/-! ### JSON-like values and the lodash path lookup

The debug-introspection branch treats the request context as a generic
JavaScript object: Object.keys lists its top-level keys and lodash get
resolves a dotted path inside it.  JVal is the generic tree of JS values;
an unresolved lookup produces JVal.null (undefined and null are conflated,
which is all the middleware distinguishes). -/

inductive JVal where
  | null
  | bool (b : Bool)
  | num (n : Int)
  | str (s : String)
  | arr (elems : List JVal)
  | obj (fields : List (String × JVal))

/-- Split a dotted path into its segments (accumulator form). -/
def splitPathAux : List Char → List Char → List String
  | [], acc => [String.mk acc.reverse]
  | c :: cs, acc =>
    if c == '.' then String.mk acc.reverse :: splitPathAux cs []
    else splitPathAux cs (c :: acc)

/-- Split a dotted path string into its segments. -/
def splitPath (s : String) : List String :=
  splitPathAux s.toList []

/-- One step of the lodash path walk: look a key up in an object (or an
index up in an array); anything unresolved gives null. -/
def getKey : JVal → String → JVal
  | JVal.obj fields, k => (fields.lookup k).getD JVal.null
  | JVal.arr elems, k =>
    match k.toNat? with
    | some i => elems.getD i JVal.null
    | none => JVal.null
  | _, _ => JVal.null

/-- Walk a list of path segments from a value. -/
def getPath (v : JVal) (segs : List String) : JVal :=
  segs.foldl getKey v

/-- lodash get(v, path) for a dotted string path. -/
def lodashGet (v : JVal) (path : String) : JVal :=
  getPath v (splitPath path)

/-- JS Object.keys on the generic value (empty for non-objects). -/
def topKeys : JVal → List String
  | JVal.obj fields => fields.map Prod.fst
  | _ => []

/-- The advisory message returned by the bare ?json listing
(render-page.js lines 136-138). -/
def advisoryMessage : String :=
  "The full context object is too big to display! Try one of the individual keys below, e.g. ?json=page. You can also access nested props like ?json=site.data.reusables"

/-- The shallow-listing payload: advisory message plus the top-level keys of
the context object, never any nested value (render-page.js lines 135-139). -/
def shallowListing (ctxObj : JVal) : JVal :=
  JVal.obj
    [("message", JVal.str advisoryMessage),
     ("keys", JVal.arr ((topKeys ctxObj).map JVal.str))]

/-- The payload of the debug JSON response (render-page.js lines 129-141):
a value of length greater than one is resolved as a dotted path with
lodash get, otherwise the shallow key listing is returned. -/
def debugJsonPayload (ctxObj : JVal) (q : String) : JVal :=
  if q.length > 1 then lodashGet ctxObj q else shallowListing ctxObj

/-! ### Cache-control policies

render-page.js builds both policies from cacheControlFactory, imported from
middleware/cache-control.js, with the same argument 0 (lines 12-14). -/

/-- Modelled from the spec: middleware/cache-control.js (not under src/)
exports cacheControlFactory, a stateless function mapping a max-age to the
Cache-Control directive a policy sets on the response; a max-age of zero
yields the no-cache directive.  Applying a policy to a response sets the
Cache-Control header to this directive. -/
def cacheControlFactory (maxAge : Nat) : String :=
  if maxAge = 0 then "private, no-store" else "public, max-age=" ++ toString maxAge

/-- render-page.js line 12. -/
def noCacheControl : String := cacheControlFactory 0

/-- render-page.js line 14 (started at no cache, future TTL tiers reserved). -/
def htmlCacheControl : String := cacheControlFactory 0

/-! ### Data model -/

/-- The fields of the resolved page the middleware reads. -/
structure Page where
  titlePlainText : String
  effectiveDate : Option String
  showMiniToc : Bool
  miniTocMaxHeadingLevel : Nat

/-- The render context (req.context): the resolved page plus the site-wide
data the middleware reads, together with its view as a generic JS object
(field obj) used by the debug introspector. -/
structure Context where
  page : Option Page
  redirectNotFound : Option String
  currentVersion : String
  githubDocsLabel : String
  graphqlObjectsHtml : String
  graphqlInputObjectsHtml : String
  graphqlMutationsHtml : String
  obj : JVal

/-- The request descriptor fields the middleware reads.  queryJson is none
when the json key is not in req.query, and some v (possibly empty) when it
is present with value v. -/
structure Req where
  method : String
  path : String
  pagePath : Option String
  queryJson : Option String

/-- External collaborators and ambient environment, fixed for one request:
the homepage pattern, the version catalog (mapping a version id to its
display title), Page.getLanguageVariants, getMiniTocItems, date formatting,
the output of the awaited page.render call, the two polls of the connection
monitor, and process.env.NODE_ENV. -/
structure Ext where
  homepageTest : String → Bool
  allVersions : String → Option String
  getLanguageVariants : String → List String
  getMiniTocItems : String → Nat → String → List String
  toUTCString : String → String
  renderResult : String
  dropped1 : Bool
  dropped2 : Bool
  nodeEnv : String

/-- The terminal response action of one invocation: the external 404
renderer, an empty send, a JSON body, or delegation to the fallback
handler. -/
inductive Action where
  | respondNotFound
  | respondEmpty (status : Nat) (body : String)
  | respondJson (payload : JVal)
  | delegate

/-- Every observable effect of one invocation of the middleware: the
terminal action (none when the pipeline aborts on a dropped connection),
the response headers in the order they were set, console diagnostics,
whether page.render and getMiniTocItems were invoked, and the values
attached to the page/context (none when the pipeline stopped before the
corresponding assignment). -/
structure RPResult where
  action : Option Action
  headers : List (String × String)
  diagnostics : List String
  renderCalled : Bool
  renderedPage : Option String
  miniTocCalled : Bool
  miniTocItems : Option (Option (List String))
  languageVariants : Option (List String)
  fullTitle : Option String

/-- The console.error text for a failed redirect-not-found
(render-page.js lines 66-68). -/
def redirectNotFoundDiag (target : String) : String :=
  "\nTried to redirect to " ++ target ++ ", but that page was not found.\n"

/-! ### The middleware, translated -/

/-- buildRenderedPage (render-page.js lines 18-43) after the awaited base
render: baseHtml is the output of the statsd-timed page.render(context)
call; the three special-case prerendered GraphQL fragments are appended by
exact path suffix, first match wins. -/
def buildRenderedPage (ctx : Context) (path : String) (baseHtml : String) : String :=
  if jsEndsWith path "graphql/reference/objects" then
    baseHtml ++ ctx.graphqlObjectsHtml
  else if jsEndsWith path "graphql/reference/input-objects" then
    baseHtml ++ ctx.graphqlInputObjectsHtml
  else if jsEndsWith path "graphql/reference/mutations" then
    baseHtml ++ ctx.graphqlMutationsHtml
  else
    baseHtml

/-- buildMiniTocItems (render-page.js lines 45-55): undefined when the page
does not show a mini toc, otherwise the external extraction on the rendered
page with the configured maximum heading level and an empty prefix
argument. -/
def buildMiniTocItems (getMiniTocItems : String → Nat → String → List String)
    (page : Page) (renderedPage : String) : Option (List String) :=
  if !page.showMiniToc then none
  else some (getMiniTocItems renderedPage page.miniTocMaxHeadingLevel "")

/-- The title composition of render-page.js lines 103-123, as a pure
function: start from the plain title; outside the homepage append either
the site github-docs label or the (possibly GitHub-prefixed) catalog
version title followed by the Docs suffix. -/
def composeFullTitle (homepageTest : String → Bool)
    (allVersions : String → Option String)
    (titlePlainText path currentVersion githubDocsLabel : String) : String :=
  if !homepageTest path then
    if currentVersion == "free-pro-team@latest" || (allVersions currentVersion).isNone then
      titlePlainText ++ " - " ++ githubDocsLabel
    else
      let versionTitle := (allVersions currentVersion).getD ""
      titlePlainText ++ " - " ++
        (if !jsIncludes versionTitle "GitHub" then "GitHub " else "") ++
        versionTitle ++ " Docs"
  else
    titlePlainText

/-- renderPage (render-page.js lines 57-144), the orchestrator, as a pure
function from request, context and external behaviour to its observable
effects. -/
def renderPage (ext : Ext) (req : Req) (ctx : Context) : RPResult :=
  let path := jsOrStr req.pagePath req.path
  match ctx.page with
  | none =>
    { action := some Action.respondNotFound
      headers := [("Cache-Control", noCacheControl)]
      diagnostics :=
        if ext.nodeEnv != "test" && jsTruthyStr ctx.redirectNotFound then
          [redirectNotFoundDiag (ctx.redirectNotFound.getD "")]
        else []
      renderCalled := false, renderedPage := none
      miniTocCalled := false, miniTocItems := none
      languageVariants := none, fullTitle := none }
  | some page =>
    if req.method == "HEAD" then
      { action := some (Action.respondEmpty 200 "")
        headers := [("Cache-Control", noCacheControl)]
        diagnostics := []
        renderCalled := false, renderedPage := none
        miniTocCalled := false, miniTocItems := none
        languageVariants := none, fullTitle := none }
    else
      let headers :=
        [("Cache-Control", htmlCacheControl)] ++
          (match page.effectiveDate with
           | some d => [("Last-Modified", ext.toUTCString d)]
           | none => [])
      let languageVariants := ext.getLanguageVariants path
      if ext.dropped1 then
        { action := none
          headers := headers, diagnostics := []
          renderCalled := false, renderedPage := none
          miniTocCalled := false, miniTocItems := none
          languageVariants := some languageVariants, fullTitle := none }
      else
        let renderedPage := buildRenderedPage ctx path ext.renderResult
        let miniTocItems := buildMiniTocItems ext.getMiniTocItems page renderedPage
        if ext.dropped2 then
          { action := none
            headers := headers, diagnostics := []
            renderCalled := true, renderedPage := some renderedPage
            miniTocCalled := page.showMiniToc, miniTocItems := some miniTocItems
            languageVariants := some languageVariants, fullTitle := none }
        else
          let fullTitle := composeFullTitle ext.homepageTest ext.allVersions
            page.titlePlainText path ctx.currentVersion ctx.githubDocsLabel
          let isRequestingJsonForDebugging :=
            req.queryJson.isSome && ext.nodeEnv != "production"
          if isRequestingJsonForDebugging then
            { action := some (Action.respondJson
                (debugJsonPayload ctx.obj (req.queryJson.getD "")))
              headers := headers, diagnostics := []
              renderCalled := true, renderedPage := some renderedPage
              miniTocCalled := page.showMiniToc, miniTocItems := some miniTocItems
              languageVariants := some languageVariants, fullTitle := some fullTitle }
          else
            { action := some Action.delegate
              headers := headers, diagnostics := []
              renderCalled := true, renderedPage := some renderedPage
              miniTocCalled := page.showMiniToc, miniTocItems := some miniTocItems
              languageVariants := some languageVariants, fullTitle := some fullTitle }

/-! ### Concrete fixtures used by the closed witness theorems -/

/-- A default external-collaborator fixture. -/
def extBase : Ext :=
  { homepageTest := fun _ => false
    allVersions := fun _ => none
    getLanguageVariants := fun _ => []
    getMiniTocItems := fun _ _ _ => []
    toUTCString := fun d => d
    renderResult := "HTML"
    dropped1 := false
    dropped2 := false
    nodeEnv := "production" }

/-- The same fixture in development mode. -/
def extDev : Ext := { extBase with nodeEnv := "development" }

/-- A minimal resolved page. -/
def pageBase : Page :=
  { titlePlainText := "T", effectiveDate := none
    showMiniToc := false, miniTocMaxHeadingLevel := 2 }

/-- A context whose page is absent and which carries a redirect hint. -/
def ctxNoPage : Context :=
  { page := none
    redirectNotFound := some "/redirected"
    currentVersion := "free-pro-team@latest"
    githubDocsLabel := "GitHub Docs"
    graphqlObjectsHtml := "O"
    graphqlInputObjectsHtml := "I"
    graphqlMutationsHtml := "M"
    obj := JVal.obj [("page", JVal.str "P"), ("site", JVal.null)] }

/-- The same context with the page present. -/
def ctxWithPage : Context := { ctxNoPage with page := some pageBase }

/-- A plain GET request. -/
def reqGet : Req :=
  { method := "GET", path := "/en/docs/x", pagePath := none, queryJson := none }

/-- A HEAD request. -/
def reqHead : Req := { reqGet with method := "HEAD" }

/-- A GET request carrying a single-segment json query value. -/
def reqJsonPage : Req := { reqGet with queryJson := some "page" }

/-! ### Claim theorems -/

/-- C1: whenever the resolved page is absent, the middleware applies the
no-cache policy and produces RespondNotFound, independently of the request
method and query; no rendering, mini-toc or title work happens. -/
theorem missing_page_always_not_found (ext : Ext) (req : Req) (ctx : Context)
    (h : ctx.page = none) :
    (renderPage ext req ctx).action = some Action.respondNotFound ∧
    (renderPage ext req ctx).headers = [("Cache-Control", noCacheControl)] ∧
    (renderPage ext req ctx).renderCalled = false ∧
    (renderPage ext req ctx).miniTocCalled = false ∧
    (renderPage ext req ctx).fullTitle = none := by
  simp [renderPage, h]

/-- C1 witness: the theorem applied at a concrete missing-page request. -/
theorem missing_page_always_not_found_witness :
    ctxNoPage.page = none ∧
    ((renderPage extBase reqGet ctxNoPage).action = some Action.respondNotFound ∧
     (renderPage extBase reqGet ctxNoPage).headers = [("Cache-Control", noCacheControl)] ∧
     (renderPage extBase reqGet ctxNoPage).renderCalled = false ∧
     (renderPage extBase reqGet ctxNoPage).miniTocCalled = false ∧
     (renderPage extBase reqGet ctxNoPage).fullTitle = none) :=
  ⟨rfl, missing_page_always_not_found extBase reqGet ctxNoPage rfl⟩

/-- C2: a HEAD request with a present page short-circuits to an empty 200
response with the no-cache policy applied; rendering and mini-toc work are
never reached. -/
theorem head_request_responds_empty (ext : Ext) (req : Req) (ctx : Context)
    (page : Page) (hp : ctx.page = some page) (hm : req.method = "HEAD") :
    (renderPage ext req ctx).action = some (Action.respondEmpty 200 "") ∧
    (renderPage ext req ctx).headers = [("Cache-Control", noCacheControl)] ∧
    (renderPage ext req ctx).renderCalled = false ∧
    (renderPage ext req ctx).miniTocCalled = false := by
  simp [renderPage, hp, hm]

/-- C2 witness: the theorem applied at a concrete HEAD request. -/
theorem head_request_responds_empty_witness :
    ctxWithPage.page = some pageBase ∧ reqHead.method = "HEAD" ∧
    ((renderPage extBase reqHead ctxWithPage).action = some (Action.respondEmpty 200 "") ∧
     (renderPage extBase reqHead ctxWithPage).headers = [("Cache-Control", noCacheControl)] ∧
     (renderPage extBase reqHead ctxWithPage).renderCalled = false ∧
     (renderPage extBase reqHead ctxWithPage).miniTocCalled = false) :=
  ⟨rfl, rfl, head_request_responds_empty extBase reqHead ctxWithPage pageBase rfl rfl⟩

/-- C3: in production mode the debug-introspection branch is unreachable:
no RespondJson action is ever produced, whatever the query, and a request
that reaches the end of the pipeline falls through to delegation. -/
theorem production_never_debug_json (ext : Ext) (req : Req) (ctx : Context)
    (he : ext.nodeEnv = "production") :
    (∀ payload, (renderPage ext req ctx).action ≠ some (Action.respondJson payload)) ∧
    (∀ page, ctx.page = some page → req.method ≠ "HEAD" →
      ext.dropped1 = false → ext.dropped2 = false →
      (renderPage ext req ctx).action = some Action.delegate) := by
  constructor
  · intro payload
    cases hpg : ctx.page with
    | none => simp [renderPage, hpg]
    | some page =>
      by_cases hm : req.method = "HEAD"
      · simp [renderPage, hpg, hm]
      · by_cases h1 : ext.dropped1 = true
        · simp [renderPage, hpg, hm, h1]
        · by_cases h2 : ext.dropped2 = true
          · simp [renderPage, hpg, hm, h1, h2]
          · simp [renderPage, hpg, hm, h1, h2, he]
  · intro page hpg hm h1 h2
    simp [renderPage, hpg, hm, h1, h2, he]

/-- C3 witness: the theorem applied at a concrete production GET request
that reaches the end of the pipeline. -/
theorem production_never_debug_json_witness :
    extBase.nodeEnv = "production" ∧
    (renderPage extBase reqGet ctxWithPage).action = some Action.delegate :=
  ⟨rfl, (production_never_debug_json extBase reqGet ctxWithPage rfl).2 pageBase rfl
    (by decide) rfl rfl⟩

/-- C5: a drop at the first checkpoint stops the pipeline before rendering
with no terminal action; a drop at the second checkpoint stops it after
rendering and mini-toc but before title composition, again with no
terminal action. -/
theorem connection_drop_halts_pipeline (ext : Ext) (req : Req) (ctx : Context)
    (page : Page) (hp : ctx.page = some page) (hm : req.method ≠ "HEAD") :
    (ext.dropped1 = true →
      (renderPage ext req ctx).action = none ∧
      (renderPage ext req ctx).renderCalled = false ∧
      (renderPage ext req ctx).miniTocCalled = false ∧
      (renderPage ext req ctx).fullTitle = none) ∧
    (ext.dropped1 = false → ext.dropped2 = true →
      (renderPage ext req ctx).action = none ∧
      (renderPage ext req ctx).renderCalled = true ∧
      (renderPage ext req ctx).fullTitle = none) := by
  constructor
  · intro h1
    simp [renderPage, hp, hm, h1]
  · intro h1 h2
    simp [renderPage, hp, hm, h1, h2]

/-- C5 witness: the theorem applied with the connection dropped at the
first checkpoint. -/
theorem connection_drop_halts_pipeline_witness :
    ({ extBase with dropped1 := true } : Ext).dropped1 = true ∧
    ((renderPage { extBase with dropped1 := true } reqGet ctxWithPage).action = none ∧
     (renderPage { extBase with dropped1 := true } reqGet ctxWithPage).renderCalled = false ∧
     (renderPage { extBase with dropped1 := true } reqGet ctxWithPage).miniTocCalled = false ∧
     (renderPage { extBase with dropped1 := true } reqGet ctxWithPage).fullTitle = none) :=
  ⟨rfl, (connection_drop_halts_pipeline { extBase with dropped1 := true } reqGet ctxWithPage
    pageBase rfl (by decide)).1 rfl⟩

/-- The spec-side brand-prefix rule: the catalog display title, with the
word GitHub prefixed exactly when the title does not already contain it. -/
def brandedTitle (versionTitle : String) : String :=
  if jsIncludes versionTitle "GitHub" then versionTitle else "GitHub " ++ versionTitle

/-- A homepage pattern that matches nothing, for the concrete witnesses. -/
def homepageNever : String → Bool := fun _ => false

/-- A one-entry version catalog whose display title lacks the brand word. -/
def catalogES : String → Option String :=
  fun v => if v == "enterprise-server@3.5" then some "Enterprise Server 3.5" else none

/-- C6: outside the homepage, for a current version that is neither the
default flagship version nor absent from the catalog, the composed title is
the plain title, a dash separator, the brand-prefixed catalog display title
and the Docs suffix. -/
theorem non_default_version_title_suffix
    (homepageTest : String → Bool) (allVersions : String → Option String)
    (titlePlainText path currentVersion githubDocsLabel versionTitle : String)
    (hh : homepageTest path = false)
    (hv : allVersions currentVersion = some versionTitle)
    (hd : currentVersion ≠ "free-pro-team@latest") :
    composeFullTitle homepageTest allVersions titlePlainText path currentVersion
      githubDocsLabel
      = titlePlainText ++ " - " ++ brandedTitle versionTitle ++ " Docs" := by
  have hcond :
      (currentVersion == "free-pro-team@latest" || (allVersions currentVersion).isNone)
        = false := by
    simp [hv, hd]
  unfold composeFullTitle brandedTitle
  rw [hh, hcond, hv]
  by_cases hinc : jsIncludes versionTitle "GitHub" = true
  · simp only [hinc, Option.getD_some, Bool.not_false, Bool.not_true,
      Bool.false_eq_true, if_false, if_true]
    rw [String.append_empty]
  · simp only [Bool.not_eq_true] at hinc
    simp only [hinc, Option.getD_some, Bool.not_false, Bool.false_eq_true,
      if_false, if_true]
    rw [String.append_assoc (titlePlainText ++ " - ") "GitHub " versionTitle]

/-- C6 witness: the theorem applied with the catalog title Enterprise
Server 3.5, which lacks the brand word, so the result ends with GitHub
Enterprise Server 3.5 Docs. -/
theorem non_default_version_title_suffix_witness :
    homepageNever "/en/x" = false ∧
    catalogES "enterprise-server@3.5" = some "Enterprise Server 3.5" ∧
    composeFullTitle homepageNever catalogES "T" "/en/x" "enterprise-server@3.5"
      "GitHub Docs"
      = "T" ++ " - " ++ brandedTitle "Enterprise Server 3.5" ++ " Docs" ∧
    jsEndsWith
      (composeFullTitle homepageNever catalogES "T" "/en/x" "enterprise-server@3.5"
        "GitHub Docs")
      "GitHub Enterprise Server 3.5 Docs" = true :=
  ⟨rfl, rfl,
   non_default_version_title_suffix homepageNever catalogES "T" "/en/x"
     "enterprise-server@3.5" "GitHub Docs" "Enterprise Server 3.5" rfl rfl (by decide),
   by decide⟩

/-- Among two prefixes of the same list, the shorter is a prefix of the
longer. -/
theorem listPrefixOf_of_common (c : List Char) :
    ∀ a b : List Char, listPrefixOf a c = true → listPrefixOf b c = true →
      a.length ≤ b.length → listPrefixOf a b = true := by
  induction c with
  | nil =>
    intro a b ha hb hl
    cases a with
    | nil => rfl
    | cons x xs => exact absurd ha (by simp [listPrefixOf])
  | cons c0 cs ih =>
    intro a b ha hb hl
    cases a with
    | nil => rfl
    | cons x xs =>
      cases b with
      | nil => exact absurd hl (by simp)
      | cons y ys =>
        simp only [listPrefixOf, Bool.and_eq_true, beq_iff_eq] at ha hb ⊢
        refine ⟨ha.1.trans hb.1.symm, ih xs ys ha.2 hb.2 ?_⟩
        simpa using hl

/-- A path ending in the reference-objects suffix does not end in either of
the other two reference suffixes. -/
theorem objects_suffix_exclusive (path : String)
    (h : jsEndsWith path "graphql/reference/objects" = true) :
    jsEndsWith path "graphql/reference/input-objects" = false ∧
    jsEndsWith path "graphql/reference/mutations" = false := by
  constructor
  · by_contra hc
    simp only [Bool.not_eq_false] at hc
    have := listPrefixOf_of_common path.toList.reverse _ _ h hc (by decide)
    revert this
    decide
  · by_contra hc
    simp only [Bool.not_eq_false] at hc
    have := listPrefixOf_of_common path.toList.reverse _ _ h hc (by decide)
    revert this
    decide

/-- A path ending in the reference-input-objects suffix does not end in the
reference-mutations suffix. -/
theorem input_objects_suffix_exclusive (path : String)
    (h : jsEndsWith path "graphql/reference/input-objects" = true) :
    jsEndsWith path "graphql/reference/mutations" = false := by
  by_contra hc
  simp only [Bool.not_eq_false] at hc
  have := listPrefixOf_of_common path.toList.reverse _ _ hc h (by decide)
  revert this
  decide

/-- C7: the rendered page is the base renderer output with the matching
prerendered GraphQL fragment appended exactly when the path ends in one of
the three known reference suffixes; the three suffixes are mutually
exclusive, so at most one augmentation applies, and with no match the base
HTML is returned unchanged. -/
theorem graphql_suffix_augmentation (ctx : Context) (path baseHtml : String) :
    (jsEndsWith path "graphql/reference/objects" = true →
      buildRenderedPage ctx path baseHtml = baseHtml ++ ctx.graphqlObjectsHtml) ∧
    (jsEndsWith path "graphql/reference/input-objects" = true →
      buildRenderedPage ctx path baseHtml = baseHtml ++ ctx.graphqlInputObjectsHtml) ∧
    (jsEndsWith path "graphql/reference/mutations" = true →
      buildRenderedPage ctx path baseHtml = baseHtml ++ ctx.graphqlMutationsHtml) ∧
    (jsEndsWith path "graphql/reference/objects" = false →
      jsEndsWith path "graphql/reference/input-objects" = false →
      jsEndsWith path "graphql/reference/mutations" = false →
      buildRenderedPage ctx path baseHtml = baseHtml) := by
  refine ⟨?_, ?_, ?_, ?_⟩
  · intro h1
    simp [buildRenderedPage, h1]
  · intro h2
    have h1 : jsEndsWith path "graphql/reference/objects" = false := by
      by_contra hc
      simp only [Bool.not_eq_false] at hc
      have := (objects_suffix_exclusive path hc).1
      rw [h2] at this
      exact Bool.noConfusion this
    simp [buildRenderedPage, h1, h2]
  · intro h3
    have h1 : jsEndsWith path "graphql/reference/objects" = false := by
      by_contra hc
      simp only [Bool.not_eq_false] at hc
      have := (objects_suffix_exclusive path hc).2
      rw [h3] at this
      exact Bool.noConfusion this
    have h2 : jsEndsWith path "graphql/reference/input-objects" = false := by
      by_contra hc
      simp only [Bool.not_eq_false] at hc
      have := input_objects_suffix_exclusive path hc
      rw [h3] at this
      exact Bool.noConfusion this
    simp [buildRenderedPage, h1, h2, h3]
  · intro h1 h2 h3
    simp [buildRenderedPage, h1, h2, h3]

/-- C7 witness: the theorem applied on a concrete objects-reference path and
on a concrete unaugmented path. -/
theorem graphql_suffix_augmentation_witness :
    jsEndsWith "/en/graphql/reference/objects" "graphql/reference/objects" = true ∧
    buildRenderedPage ctxWithPage "/en/graphql/reference/objects" "B"
      = "B" ++ ctxWithPage.graphqlObjectsHtml ∧
    buildRenderedPage ctxWithPage "/en/docs/x" "B" = "B" :=
  ⟨by decide,
   (graphql_suffix_augmentation ctxWithPage "/en/graphql/reference/objects" "B").1
     (by decide),
   (graphql_suffix_augmentation ctxWithPage "/en/docs/x" "B").2.2.2
     (by decide) (by decide) (by decide)⟩

/-- C8 counterexample: with NODE_ENV set to development (a dev execution
mode that is neither production nor test) and a redirect-not-found hint
present, the missing-page path DOES emit the diagnostic, so emission is not
restricted to modes outside both test and dev. -/
theorem dev_mode_emits_redirect_diag :
    extDev.nodeEnv = "development" ∧
    ctxNoPage.page = none ∧
    ctxNoPage.redirectNotFound = some "/redirected" ∧
    (renderPage extDev reqGet ctxNoPage).diagnostics
      = [redirectNotFoundDiag "/redirected"] :=
  ⟨rfl, rfl, rfl, rfl⟩

/-- C8 (amended): on the missing-page path the diagnostic is emitted exactly
when NODE_ENV is not the test mode and the redirect-not-found hint is
present and truthy; it is non-fatal and side-channel only, as the action is
still RespondNotFound with the no-cache policy applied. -/
theorem missing_page_diag_iff_not_test (ext : Ext) (req : Req) (ctx : Context)
    (h : ctx.page = none) :
    ((renderPage ext req ctx).diagnostics ≠ [] ↔
      (ext.nodeEnv ≠ "test" ∧ jsTruthyStr ctx.redirectNotFound = true)) ∧
    (renderPage ext req ctx).action = some Action.respondNotFound ∧
    (renderPage ext req ctx).headers = [("Cache-Control", noCacheControl)] := by
  refine ⟨?_, ?_, ?_⟩
  · by_cases ht : ext.nodeEnv = "test"
    · simp [renderPage, h, ht]
    · by_cases hr : jsTruthyStr ctx.redirectNotFound = true
      · simp [renderPage, h, ht, hr, bne_iff_ne]
      · simp only [Bool.not_eq_true] at hr
        simp [renderPage, h, ht, hr, bne_iff_ne]
  · simp [renderPage, h]
  · simp [renderPage, h]

/-- C8 witness: the amended theorem applied at a concrete production
missing-page request carrying a redirect hint. -/
theorem missing_page_diag_iff_not_test_witness :
    ctxNoPage.page = none ∧
    (((renderPage extBase reqGet ctxNoPage).diagnostics ≠ [] ↔
       (extBase.nodeEnv ≠ "test" ∧ jsTruthyStr ctxNoPage.redirectNotFound = true)) ∧
     (renderPage extBase reqGet ctxNoPage).action = some Action.respondNotFound ∧
     (renderPage extBase reqGet ctxNoPage).headers = [("Cache-Control", noCacheControl)]) :=
  ⟨rfl, missing_page_diag_iff_not_test extBase reqGet ctxNoPage rfl⟩

/-- C9: the no-cache policy and the html policy are built from the same
factory with the same max-age of zero, so they are one and the same
no-cache directive, and every invocation that produces a terminal action
has set the Cache-Control header to that directive. -/
theorem cache_policies_identical (ext : Ext) (req : Req) (ctx : Context) :
    noCacheControl = htmlCacheControl ∧
    noCacheControl = "private, no-store" ∧
    (∀ a, (renderPage ext req ctx).action = some a →
      (renderPage ext req ctx).headers.lookup "Cache-Control" = some noCacheControl) := by
  refine ⟨rfl, rfl, ?_⟩
  intro a ha
  cases hpg : ctx.page with
  | none => simp [renderPage, hpg, List.lookup]
  | some page =>
    by_cases hm : req.method = "HEAD"
    · simp [renderPage, hpg, hm, List.lookup]
    · by_cases h1 : ext.dropped1 = true
      · rw [renderPage] at ha
        simp [hpg, hm, h1] at ha
      · by_cases h2 : ext.dropped2 = true
        · rw [renderPage] at ha
          simp [hpg, hm, h1, h2] at ha
        · by_cases hj : (req.queryJson.isSome && ext.nodeEnv != "production") = true
          · simp [renderPage, hpg, hm, h1, h2, hj, List.lookup, noCacheControl,
              htmlCacheControl]
          · simp [renderPage, hpg, hm, h1, h2, hj, List.lookup, noCacheControl,
              htmlCacheControl]

/-- C9 witness: the theorem applied at a concrete delegating request. -/
theorem cache_policies_identical_witness :
    (renderPage extBase reqGet ctxWithPage).action = some Action.delegate ∧
    (renderPage extBase reqGet ctxWithPage).headers.lookup "Cache-Control"
      = some noCacheControl :=
  ⟨rfl, (cache_policies_identical extBase reqGet ctxWithPage).2.2 Action.delegate rfl⟩

/-- C10: an abort at the first checkpoint does not undo the side effects
already performed: the html cache policy is on the response, Last-Modified
was set whenever the page declares an effective date, and the language
variants were assigned, even though no terminal action is produced. -/
theorem drop_abort_preserves_prior_effects (ext : Ext) (req : Req) (ctx : Context)
    (page : Page) (hp : ctx.page = some page) (hm : req.method ≠ "HEAD")
    (h1 : ext.dropped1 = true) :
    (renderPage ext req ctx).action = none ∧
    (renderPage ext req ctx).headers.lookup "Cache-Control" = some htmlCacheControl ∧
    (∀ d, page.effectiveDate = some d →
      ("Last-Modified", ext.toUTCString d) ∈ (renderPage ext req ctx).headers) ∧
    (renderPage ext req ctx).languageVariants
      = some (ext.getLanguageVariants (jsOrStr req.pagePath req.path)) := by
  refine ⟨?_, ?_, ?_, ?_⟩
  · simp [renderPage, hp, hm, h1]
  · simp [renderPage, hp, hm, h1, List.lookup]
  · intro d hd
    simp [renderPage, hp, hm, h1, hd]
  · simp [renderPage, hp, hm, h1]

/-- A page with an effective date, for the C10 witness. -/
def pageDated : Page := { pageBase with effectiveDate := some "2022-01-01" }

/-- A context holding the dated page. -/
def ctxDated : Context := { ctxNoPage with page := some pageDated }

/-- The external fixture with the connection already dropped at the first
checkpoint. -/
def extDrop1 : Ext := { extBase with dropped1 := true }

/-- C10 witness: the theorem applied at a concrete aborted request whose
page declares an effective date. -/
theorem drop_abort_preserves_prior_effects_witness :
    ctxDated.page = some pageDated ∧ extDrop1.dropped1 = true ∧
    ((renderPage extDrop1 reqGet ctxDated).action = none ∧
     (renderPage extDrop1 reqGet ctxDated).headers.lookup "Cache-Control"
       = some htmlCacheControl ∧
     ("Last-Modified", extDrop1.toUTCString "2022-01-01")
       ∈ (renderPage extDrop1 reqGet ctxDated).headers ∧
     (renderPage extDrop1 reqGet ctxDated).languageVariants
       = some (extDrop1.getLanguageVariants (jsOrStr reqGet.pagePath reqGet.path))) :=
  ⟨rfl, rfl,
   (drop_abort_preserves_prior_effects extDrop1 reqGet ctxDated pageDated rfl
      (by decide) rfl).1,
   (drop_abort_preserves_prior_effects extDrop1 reqGet ctxDated pageDated rfl
      (by decide) rfl).2.1,
   (drop_abort_preserves_prior_effects extDrop1 reqGet ctxDated pageDated rfl
      (by decide) rfl).2.2.1 "2022-01-01" rfl,
   (drop_abort_preserves_prior_effects extDrop1 reqGet ctxDated pageDated rfl
      (by decide) rfl).2.2.2⟩

/-- Walking any path segments from null stays null. -/
theorem foldl_getKey_null (segs : List String) :
    List.foldl getKey JVal.null segs = JVal.null := by
  induction segs with
  | nil => rfl
  | cons s rest ih => exact ih

/-- C4 counterexample: the value page of the json query parameter is a
single segment (no dot separator), yet the response is the deep lookup of
that key, not the shallow listing: the code branches on string length, not
on the presence of a separator. -/
theorem single_segment_json_is_deep_lookup :
    (splitPath "page").length = 1 ∧
    (renderPage extDev reqJsonPage ctxWithPage).action
      = some (Action.respondJson (JVal.str "P")) ∧
    JVal.str "P" ≠ shallowListing ctxWithPage.obj := by
  refine ⟨rfl, rfl, ?_⟩
  intro h
  simp [shallowListing] at h

/-- C4 (amended): outside production, for a request that reaches the debug
check with the json parameter present, the branch is decided by the string
length of the parameter value: a value of length at most one yields the
shallow listing (advisory message plus top-level keys), a longer value is
resolved as a dotted path by the deep lookup (even when it has a single
segment); a path whose first segment is not a key of the context resolves
to null rather than an error. -/
theorem json_branch_on_value_length (ext : Ext) (req : Req) (ctx : Context)
    (page : Page) (q : String)
    (hp : ctx.page = some page) (hm : req.method ≠ "HEAD")
    (h1 : ext.dropped1 = false) (h2 : ext.dropped2 = false)
    (he : ext.nodeEnv ≠ "production") (hq : req.queryJson = some q) :
    (q.length ≤ 1 →
      (renderPage ext req ctx).action
        = some (Action.respondJson (shallowListing ctx.obj))) ∧
    (1 < q.length →
      (renderPage ext req ctx).action
        = some (Action.respondJson (lodashGet ctx.obj q))) ∧
    (∀ fields k rest, List.lookup k fields = none →
      getPath (JVal.obj fields) (k :: rest) = JVal.null) := by
  refine ⟨?_, ?_, ?_⟩
  · intro hlen
    simp [renderPage, hp, hm, h1, h2, he, hq, debugJsonPayload, Nat.not_lt.mpr hlen,
      bne_iff_ne]
  · intro hlen
    simp [renderPage, hp, hm, h1, h2, he, hq, debugJsonPayload, hlen, bne_iff_ne]
  · intro fields k rest hlk
    simp only [getPath, List.foldl_cons, getKey, hlk, Option.getD_none]
    exact foldl_getKey_null rest

/-- C4 witness: the amended theorem applied at a concrete non-production
request whose json value page has length four, producing the deep lookup. -/
theorem json_branch_on_value_length_witness :
    reqJsonPage.queryJson = some "page" ∧
    1 < ("page" : String).length ∧
    (renderPage extDev reqJsonPage ctxWithPage).action
      = some (Action.respondJson (lodashGet ctxWithPage.obj "page")) :=
  ⟨rfl, by decide,
   (json_branch_on_value_length extDev reqJsonPage ctxWithPage pageBase "page" rfl
      (by decide) rfl rfl (by decide) rfl).2.1 (by decide)⟩

end RenderPageSpec
